import Mathlib

/-!
Verification of the `geotra_slide` slide-document generation pipeline
(`slide_models.py`, `slide_library.py`, `slide_generation.py`).

The Python code is shallowly embedded: dataclasses become structures,
Python dicts become association lists (`List (String × Value)`) preserving
insertion order, arbitrary JSON-like payloads become the inductive `Value`,
and code that can raise returns `Except PyError`.  Python truthiness is
modelled by `Value.truthy`.  External collaborators (the LLM client) are
modelled by small outcome types describing what a call does; the number of
collaborator calls performed is returned alongside each result so that
call-count properties can be stated.
-/

/-- Model of a Python value as it appears in JSON-like payloads
(dict / list / str / int / bool / None). -/
inductive Value where
  | null : Value
  | bool : Bool → Value
  | int : Int → Value
  | str : String → Value
  | arr : List Value → Value
  | obj : List (String × Value) → Value

/-- Python truthiness of a `Value` (`bool(v)`): `None`, `False`, `0`, `""`,
`[]` and `{}` are falsy, everything else truthy. -/
def Value.truthy : Value → Bool
  | .null => false
  | .bool b => b
  | .int n => n ≠ 0
  | .str s => s ≠ ""
  | .arr xs => ¬ xs.isEmpty
  | .obj fs => ¬ fs.isEmpty

/-- Truthiness of an optional value (absence is falsy). -/
def optTruthy : Option Value → Bool
  | none => false
  | some v => v.truthy

/-- Truthiness of an optional string, as Python applies it to `Optional[str]`
fields (`None` and `""` are falsy). -/
def strOptTruthy : Option String → Bool
  | none => false
  | some s => s ≠ ""

/-- Dict lookup `d.get(key)` on an association list (keys are unique in every
dict the embedded code builds, so first match is the match). -/
def dictGet (fields : List (String × Value)) (key : String) : Option Value :=
  (fields.find? (fun p => p.1 = key)).map Prod.snd

/-- Dict lookup with a default, `d.get(key, dflt)`. -/
def dictGetD (fields : List (String × Value)) (key : String) (dflt : Value) : Value :=
  match dictGet fields key with
  | some v => v
  | none => dflt

/-- Dict assignment `d[key] = v`: replaces the value at an existing key in
place (keeping its position, as Python dicts do), else appends. -/
def dictSet (fields : List (String × Value)) (key : String) (v : Value) :
    List (String × Value) :=
  match fields with
  | [] => [(key, v)]
  | (k, w) :: rest =>
      if k = key then (k, v) :: rest else (k, w) :: dictSet rest key v

/-- Dict `d.setdefault(key, dflt)`: appends the default only when the key is
absent. -/
def dictSetdefault (fields : List (String × Value)) (key : String) (dflt : Value) :
    List (String × Value) :=
  match dictGet fields key with
  | some _ => fields
  | none => fields ++ [(key, dflt)]

/-- Coerce a `Value` to a string with a default.  The embedded code only ever
reads strings here; a non-string value would produce an ill-typed Python
dataclass, which lies outside this model's type universe. -/
def Value.asStrD (dflt : String) : Value → String
  | .str s => s
  | _ => dflt

/-- Coerce a `Value` to an integer with a default, modelling `int(...)` on the
well-typed inputs the embedded code produces (Python's `int` would also parse
numeric strings and raise on other input; neither case arises on the
round-trip domain). -/
def Value.asIntD (dflt : Int) : Value → Int
  | .int n => n
  | _ => dflt

/-- Read a list of strings from a `Value` (`list(...)` over a JSON array of
strings); non-list values and non-string items are outside the well-typed
universe and are defaulted. -/
def Value.asStrList : Value → List String
  | .arr xs => xs.map (Value.asStrD "")
  | _ => []

/-- Errors raised by the embedded Python code. -/
inductive PyError where
  | keyError : String → PyError
  | runtimeError : String → PyError
  | typeError : String → PyError
  | exception : PyError
deriving DecidableEq

/-! ## Data model (`slide_models.py`) -/

/-- Dataclass `PlaceholderSpec`. -/
structure PlaceholderSpec where
  name : String
  idx : Int
  description : String
  edit_policy : String
deriving DecidableEq

/-- Dataclass `SlideAsset`. -/
structure SlideAsset where
  asset_id : String
  file_name : String
  description : String
  category : Option String
  tags : List String
  placeholders : List PlaceholderSpec
deriving DecidableEq

/-- Dataclass `SlidePlaceholderContent`. -/
structure SlidePlaceholderContent where
  name : String
  text : String
  policy : String
  references : List String
deriving DecidableEq

/-- Dataclass `SlidePage`.  `notes` is a free-form dict. -/
structure SlidePage where
  slide_id : String
  page_number : Int
  asset_id : String
  asset_file : String
  title : Option String
  placeholders : List SlidePlaceholderContent
  notes : List (String × Value)

/-- Dataclass `SlideDocument`. -/
structure SlideDocument where
  slides : List SlidePage
  metadata : List (String × Value)

/-! ## Serialization (`to_dict` / `from_dict`) -/

/-- Method `SlidePlaceholderContent.to_dict`. -/
def SlidePlaceholderContent.to_dict (c : SlidePlaceholderContent) : Value :=
  .obj [("placeholder_name", .str c.name),
        ("content", .str c.text),
        ("policy", .str c.policy),
        ("references", .arr (c.references.map Value.str))]

/-- Classmethod `SlidePlaceholderContent.from_dict` (non-dict input would
raise `AttributeError` in Python; defaulted here, never hit on the round-trip
domain). -/
def SlidePlaceholderContent.from_dict : Value → SlidePlaceholderContent
  | .obj fields =>
      { name := (dictGetD fields "placeholder_name" (.str "")).asStrD ""
        text := (dictGetD fields "content" (.str "")).asStrD ""
        policy := (dictGetD fields "policy" (.str "generate")).asStrD "generate"
        references := (dictGetD fields "references" (.arr [])).asStrList }
  | _ => { name := "", text := "", policy := "generate", references := [] }

/-- Method `SlidePage.to_dict`; the optional `title` is written as-is
(`None` becomes JSON null). -/
def SlidePage.to_dict (p : SlidePage) : Value :=
  .obj [("slide_id", .str p.slide_id),
        ("page", .int p.page_number),
        ("asset_id", .str p.asset_id),
        ("asset_file", .str p.asset_file),
        ("title", match p.title with | some t => .str t | none => .null),
        ("placeholders", .arr (p.placeholders.map SlidePlaceholderContent.to_dict)),
        ("notes", .obj p.notes)]

/-- Classmethod `SlidePage.from_dict`. -/
def SlidePage.from_dict : Value → SlidePage
  | .obj fields =>
      { slide_id := (dictGetD fields "slide_id" (.str "")).asStrD ""
        page_number := (dictGetD fields "page" (.int 1)).asIntD 1
        asset_id := (dictGetD fields "asset_id" (.str "")).asStrD ""
        asset_file := (dictGetD fields "asset_file" (.str "")).asStrD ""
        title := match dictGet fields "title" with
                 | some (.str t) => some t
                 | _ => none
        placeholders := match dictGet fields "placeholders" with
                        | some (.arr xs) => xs.map SlidePlaceholderContent.from_dict
                        | _ => []
        notes := match dictGet fields "notes" with
                 | some (.obj fs) => fs
                 | _ => [] }
  | _ => { slide_id := "", page_number := 1, asset_id := "", asset_file := "",
           title := none, placeholders := [], notes := [] }

/-- Method `SlideDocument.to_dict`. -/
def SlideDocument.to_dict (d : SlideDocument) : Value :=
  .obj [("slides", .arr (d.slides.map SlidePage.to_dict)),
        ("metadata", .obj d.metadata)]

/-- Classmethod `SlideDocument.from_dict`. -/
def SlideDocument.from_dict : Value → SlideDocument
  | .obj fields =>
      { slides := match dictGet fields "slides" with
                  | some (.arr xs) => xs.map SlidePage.from_dict
                  | _ => []
        metadata := match dictGet fields "metadata" with
                    | some (.obj fs) => fs
                    | _ => [] }
  | _ => { slides := [], metadata := [] }

/-! ## Slide library (`slide_library.py`) -/

/-- In-memory slide library: the `_slide_assets` dict keyed by asset id in
manifest order (manifest loading itself is file I/O and is outside the
model; the claims only depend on the loaded dict). -/
structure SlideLibrary where
  assets : List (String × SlideAsset)

/-- Method `SlideLibrary.list_assets` (the dict's values, in insertion
order). -/
def SlideLibrary.list_assets (lib : SlideLibrary) : List SlideAsset :=
  lib.assets.map Prod.snd

/-- Method `SlideLibrary.get_asset`; `none` models the `KeyError` raise for
an unknown id. -/
def SlideLibrary.get_asset (lib : SlideLibrary) (asset_id : String) :
    Option SlideAsset :=
  (lib.assets.find? (fun p => p.1 = asset_id)).map Prod.snd

/-! ## Outline generation (`slide_generation.py`, `SlideOutlineGenerator`) -/

/-- Dataclass `GenerationContext`. -/
structure GenerationContext where
  user_request : String
  target_company : Option String := none
  external_research : Option String := none
  additional_notes : Option String := none
  internal_document : Option String := none
  perform_web_search : Bool := false
deriving DecidableEq

/-- Classification of a `StructuredOutputResponse.text` field by what
`json.loads` (an external library call) would do with it: falsy text, text
that raises `JSONDecodeError`, or text parsing to a payload. -/
inductive TextPayload where
  | empty : TextPayload
  | unparsable : TextPayload
  | parses : Value → TextPayload

/-- Dataclass `StructuredOutputResponse` as consumed by the generators:
`parsed_output` (with `None` modelled as `.null`) and the `text` field via
its parse classification.  The `error` / `validation_error` fields are only
logged and have no observable effect, so they are omitted. -/
structure StructuredOutputResponse where
  parsed_output : Value
  textPayload : TextPayload

/-- Behaviour of one `generate_structured_output` call on the external LLM
collaborator: it either raises, or returns (possibly `None`). -/
inductive StructuredCallOutcome where
  | raises : StructuredCallOutcome
  | returns : Option StructuredOutputResponse → StructuredCallOutcome

/-- Method `_extract_parsed_output` (shared shape of both generators'
versions): prefer a truthy `parsed_output`, else try `json.loads` on truthy
text, else `None`. -/
def extract_parsed_output : Option StructuredOutputResponse → Option Value
  | none => none
  | some r =>
      if r.parsed_output.truthy then some r.parsed_output
      else match r.textPayload with
           | .parses v => some v
           | _ => none

/-- Python `f"{idx:02d}"`. -/
def formatTwoDigit (n : Nat) : String :=
  if n < 10 then "0" ++ toString n else toString n

/-- Python `f"slide_{idx:02d}"`. -/
def defaultSlideId (idx : Nat) : String :=
  "slide_" ++ formatTwoDigit idx

/-- Python string slice `s[:n]` (by characters). -/
def takeChars (s : String) (n : Nat) : String :=
  (s.toList.take n).asString

/-- Loop body of `SlideOutlineGenerator._fallback_outline` over
`enumerate(assets[:2], start=1)`. -/
def fallbackPages (slide_structure : String) : Nat → List SlideAsset → List SlidePage
  | _, [] => []
  | idx, a :: rest =>
      { slide_id := defaultSlideId idx
        page_number := (idx : Int)
        asset_id := a.asset_id
        asset_file := a.file_name
        title := some ("アウトラインスライド " ++ toString idx)
        placeholders := []
        notes := [("outline_notes", .str (takeChars slide_structure 200))] }
        :: fallbackPages slide_structure (idx + 1) rest

/-- Method `SlideOutlineGenerator._fallback_outline`: two generic slides from
the first two catalog assets. -/
def fallback_outline (assets : List SlideAsset) (slide_structure : String) :
    List SlidePage :=
  fallbackPages slide_structure 1 (assets.take 2)

/-- Extraction of a string field through Python's `or` default idiom
(`raw.get(k) or dflt`): a truthy string wins, a falsy or absent value yields
the default.  A truthy non-string would produce an ill-typed dataclass in
Python and is outside this model's type universe. -/
def strOrD (v : Option Value) (dflt : String) : String :=
  match v with
  | some (.str s) => if s = "" then dflt else s
  | _ => dflt

/-- Python `int(v)` on the value chosen by the `page_number`/`page`/index
chain: ints pass through, bools are 0/1, numeric strings parse, anything
else raises (`ValueError`/`TypeError`, lumped as one error here). -/
def pyInt : Value → Except PyError Int
  | .int n => .ok n
  | .bool b => .ok (if b then 1 else 0)
  | .str s => match s.toInt? with
              | some n => .ok n
              | none => .error (.typeError "int() argument")
  | _ => .error (.typeError "int() argument")

/-- Dict-key lookup `self._slide_assets[asset_id]` with a non-string key
value, as `get_asset` receives it from the payload: string keys are looked
up (`KeyError` when absent, re-raised by `get_asset` with a message);
unhashable list/dict keys raise `TypeError`; other hashable keys simply miss
the string-keyed dict. -/
def assetKeyLookup (lib : SlideLibrary) : Value → Except PyError SlideAsset
  | .str s =>
      match lib.get_asset s with
      | some a => .ok a
      | none => .error (.keyError ("Unknown slide asset id: " ++ s))
  | .arr _ => .error (.typeError "unhashable type")
  | .obj _ => .error (.typeError "unhashable type")
  | _ => .error (.keyError "Unknown slide asset id")

/-- Python `payload.get("slides", [])` followed by iteration, as used by
`_build_slides_from_parsed`: a non-dict payload yields no entries; a list
yields its items; iterating a string yields its characters and a dict its
keys (all non-dict items, later skipped); other values are not iterable. -/
def slidesPayloadEntries (payload : Value) : Except PyError (List Value) :=
  match payload with
  | .obj fields =>
      match dictGetD fields "slides" (.arr []) with
      | .arr xs => .ok xs
      | .str s => .ok (s.toList.map (fun c => Value.str (String.mk [c])))
      | .obj fs => .ok (fs.map (fun p => Value.str p.1))
      | _ => .error (.typeError "object is not iterable")
  | _ => .ok []

/-- One accepted iteration of the `_build_slides_from_parsed` loop, for a
dict entry whose `asset_id` is truthy (`idx` is the 1-based `enumerate`
position). -/
def buildSlideEntry (lib : SlideLibrary) (idx : Nat)
    (fields : List (String × Value)) : Except PyError SlidePage :=
  match assetKeyLookup lib (dictGetD fields "asset_id" .null) with
  | .error e => .error e
  | .ok asset =>
      let chosenPage :=
        if optTruthy (dictGet fields "page_number") then dictGetD fields "page_number" .null
        else if optTruthy (dictGet fields "page") then dictGetD fields "page" .null
        else .int (idx : Int)
      match pyInt chosenPage with
      | .error e => .error e
      | .ok page =>
          .ok { slide_id := strOrD (dictGet fields "slide_id") (defaultSlideId idx)
                page_number := page
                asset_id := asset.asset_id
                asset_file := asset.file_name
                title := match dictGet fields "title" with
                         | some (.str t) => some t
                         | _ => none
                placeholders := []
                notes := if optTruthy (dictGet fields "notes") then
                           [("outline_notes", dictGetD fields "notes" .null)]
                         else [] }

/-- Loop of `_build_slides_from_parsed` over `enumerate(slides_payload,
start=1)`: non-dict entries and entries with a falsy `asset_id` are skipped;
the index advances for skipped entries too. -/
def buildSlidesLoop (lib : SlideLibrary) : Nat → List Value → Except PyError (List SlidePage)
  | _, [] => .ok []
  | idx, raw :: rest =>
      match raw with
      | .obj fields =>
          if optTruthy (dictGet fields "asset_id") then
            match buildSlideEntry lib idx fields with
            | .error e => .error e
            | .ok page =>
                match buildSlidesLoop lib (idx + 1) rest with
                | .error e => .error e
                | .ok pages => .ok (page :: pages)
          else buildSlidesLoop lib (idx + 1) rest
      | _ => buildSlidesLoop lib (idx + 1) rest

/-- One step of a stable insertion sort by `page_number`: the new element
goes after every element with a strictly smaller key and before the first
element with an equal or larger key. -/
def insertByPage (p : SlidePage) : List SlidePage → List SlidePage
  | [] => [p]
  | q :: qs => if q.page_number < p.page_number then q :: insertByPage p qs
               else p :: q :: qs

/-- Python `slides.sort(key=lambda slide: slide.page_number)` (CPython's
stable Timsort).  Implemented as a stable insertion sort; every stable
sort by the same key computes the same output list. -/
def sortByPage : List SlidePage → List SlidePage
  | [] => []
  | p :: ps => insertByPage p (sortByPage ps)

/-- Method `SlideOutlineGenerator._build_slides_from_parsed`. -/
def build_slides_from_parsed (lib : SlideLibrary) (payload : Value) :
    Except PyError (List SlidePage) :=
  match slidesPayloadEntries payload with
  | .error e => .error e
  | .ok entries =>
      match buildSlidesLoop lib 1 entries with
      | .error e => .error e
      | .ok slides =>
          let sorted := sortByPage slides
          if sorted.isEmpty then .ok (fallback_outline lib.list_assets "")
          else .ok sorted

/-- Method `SlideOutlineGenerator.generate_outline`.  The collaborator is
`none` when no `llm_client` is configured, otherwise the behaviour of its
single `generate_structured_output` call; the second component counts the
collaborator calls performed. -/
def generate_outline (lib : SlideLibrary) (client : Option StructuredCallOutcome)
    (slide_structure : String) (context : GenerationContext) :
    Except PyError SlideDocument × Nat :=
  let assets := lib.list_assets
  if assets.isEmpty then
    (.error (.runtimeError "スライドライブラリにアセットが存在しません。"), 0)
  else
    match client with
    | none =>
        (.ok { slides := fallback_outline assets slide_structure
               metadata := [("slide_structure", .str slide_structure)] }, 0)
    | some .raises => (.error .exception, 1)
    | some (.returns resp) =>
        let parsed := extract_parsed_output resp
        let slidesE : Except PyError (List SlidePage) :=
          match parsed with
          | some v =>
              if v.truthy then build_slides_from_parsed lib v
              else .ok (fallback_outline assets slide_structure)
          | none => .ok (fallback_outline assets slide_structure)
        match slidesE with
        | .error e => (.error e, 1)
        | .ok slides =>
            let md := [("slide_structure", Value.str slide_structure)]
            let md := if strOptTruthy context.additional_notes then
                        dictSetdefault md "user_notes"
                          (.str (context.additional_notes.getD ""))
                      else md
            (.ok { slides := slides, metadata := md }, 1)

/-! ## Content generation helper functions (`slide_generation.py`) -/

/-- Python whitespace as `str.strip()` removes it (the ASCII whitespace
characters; the embedded strings contain no exotic Unicode spaces). -/
def isPySpace (c : Char) : Bool :=
  c = ' ' ∨ c = '\t' ∨ c = '\n' ∨ c = '\r' ∨ c.toNat = 11 ∨ c.toNat = 12

/-- Python `str.strip()` (whitespace removed from both ends). -/
def pyStrip (s : String) : String :=
  ((s.toList.dropWhile isPySpace).reverse.dropWhile isPySpace).reverse.asString

/-- ASCII lowercasing of one character (the `edit_policy` strings `.lower()`
is applied to are ASCII). -/
def asciiLower (c : Char) : Char :=
  if 'A' ≤ c ∧ c ≤ 'Z' then Char.ofNat (c.toNat + 32) else c

/-- Python `str.lower()` on the ASCII range. -/
def pyLower (s : String) : String := (s.toList.map asciiLower).asString

/-- Python `str.replace(pat, rep)` for a non-empty pattern: every
non-overlapping occurrence is replaced, scanning left to right (the
embedded code never calls `replace` with an empty pattern). -/
def replaceCharsGo (pat rep : List Char) : Nat → List Char → List Char
  | _, [] => []
  | 0, cs => cs
  | fuel + 1, c :: rest =>
      if pat.isPrefixOf (c :: rest) ∧ pat ≠ [] then
        rep ++ replaceCharsGo pat rep fuel ((c :: rest).drop pat.length)
      else c :: replaceCharsGo pat rep fuel rest

/-- Python `str.replace` lifted to strings.  The scan consumes at least one
character per step, so fuel equal to the string length never runs out (the
zero-fuel arm is unreachable). -/
def pyReplace (s pat rep : String) : String :=
  (replaceCharsGo pat.toList rep.toList s.toList.length s.toList).asString

/-- Marker strings of the second regex in `_normalize_fixed_text`,
`(と記載|と記述|を記載|を記述)` — each is three characters long. -/
def boilerplateMarkers : List (List Char) :=
  [['と', '記', '載'], ['と', '記', '述'], ['を', '記', '載'], ['を', '記', '述']]

/-- Is one of the boilerplate markers at the head of the character list? -/
def markerHere (cs : List Char) : Bool :=
  boilerplateMarkers.any (fun m => m.isPrefixOf cs)

/-- Embedding of `re.sub(r"(と記載|と記述|を記載|を記述).*", "", text)`:
each occurrence of a marker is removed together with the rest of its line
(`.` does not cross a newline), scanning left to right. -/
def cutAfterMarkerGo : Nat → List Char → List Char
  | _, [] => []
  | 0, cs => cs
  | fuel + 1, c :: rest =>
      if markerHere (c :: rest) then
        cutAfterMarkerGo fuel (((c :: rest).drop 3).dropWhile (fun d => d ≠ '\n'))
      else c :: cutAfterMarkerGo fuel rest

/-- Entry point with enough fuel for the whole list (every step consumes at
least one character, so the zero-fuel arm is unreachable). -/
def cutAfterMarker (cs : List Char) : List Char := cutAfterMarkerGo cs.length cs

/-- Helper function `_normalize_fixed_text`: strip corner brackets, cut
boilerplate markers to end of line, then `strip()`. -/
def _normalize_fixed_text (description : String) : String :=
  let noBrackets := description.toList.filter (fun c => c ≠ '「' ∧ c ≠ '」')
  pyStrip (cutAfterMarker noBrackets).asString

/-- Current date as `_populate_with_context` reads it via `datetime.now()`. -/
structure Today where
  year : Nat
  month : Nat
deriving DecidableEq

/-- Python `datetime.now().strftime("%Y.%m")` (month zero-padded; years of
interest have four digits). -/
def formatYearMonth (t : Today) : String :=
  toString t.year ++ "." ++ formatTwoDigit t.month

/-- Number of leading digits consumed by the greedy `\d{0,2}`. -/
def leadingDigits2 : List Char → Nat
  | d1 :: d2 :: _ => if d1.isDigit then (if d2.isDigit then 2 else 1) else 0
  | [d1] => if d1.isDigit then 1 else 0
  | [] => 0

/-- Number of characters consumed by the optional separator `[./]?`. -/
def sepLen : List Char → Nat
  | d :: _ => if d = '.' ∨ d = '/' then 1 else 0
  | [] => 0

/-- Embedding of `re.sub(r"20XX[./]?\d{0,2}", ym, text)`: each occurrence of
`20XX`, an optional `.`/`/` and up to two digits (greedy) is replaced by the
year-month string, scanning left to right. -/
def sub20XXGo (ym : List Char) : Nat → List Char → List Char
  | _, [] => []
  | 0, cs => cs
  | fuel + 1, c :: rest =>
      if ['2', '0', 'X', 'X'].isPrefixOf (c :: rest) then
        let after := (c :: rest).drop 4
        let afterSep := after.drop (sepLen after)
        ym ++ sub20XXGo ym fuel (afterSep.drop (leadingDigits2 afterSep))
      else c :: sub20XXGo ym fuel rest

/-- Entry point with enough fuel for the whole list (every step consumes at
least one character, so the zero-fuel arm is unreachable). -/
def sub20XX (ym : List Char) (cs : List Char) : List Char :=
  sub20XXGo ym cs.length cs

/-- Helper function `_populate_with_context`: substitute the target-entity
token and year-month token patterns, then normalize like `fixed` text.  The
`description or ""` guard is the identity on the `str`-typed field. -/
def _populate_with_context (description : String) (target_company : Option String)
    (t : Today) : String :=
  let company := match target_company with
                 | some s => if s = "" then "御社" else s
                 | none => "御社"
  let text := pyReplace description "相手企業名+" company
  let text := pyReplace text "相手企業名" company
  let text := (sub20XX (formatYearMonth t).toList text.toList).asString
  let text := pyReplace text "YYYY.M" (formatYearMonth t)
  let text := pyReplace text "20XX" (toString t.year)
  _normalize_fixed_text text

/-- Character class `[A-Za-z0-9一-龥ァ-ヿー]` of `_infer_target_entity`'s
patterns (`ー`, U+30FC, is already inside `ァ-ヿ`; the pattern lists it
redundantly). -/
def entityClassChar (c : Char) : Bool :=
  ('A' ≤ c ∧ c ≤ 'Z') ∨ ('a' ≤ c ∧ c ≤ 'z') ∨ ('0' ≤ c ∧ c ≤ '9') ∨
  (0x4E00 ≤ c.toNat ∧ c.toNat ≤ 0x9FA5) ∨ (0x30A1 ≤ c.toNat ∧ c.toNat ≤ 0x30FF) ∨
  c = 'ー'

/-- Greedy match of `([class]+)suffix` anchored at the current position:
the longest group of class characters after which the suffix follows,
mirroring the regex engine's greedy `+` with backtracking. -/
def matchClassPlus (suff : List Char) : List Char → Option Nat
  | [] => none
  | c :: rest =>
      if entityClassChar c then
        match matchClassPlus suff rest with
        | some n => some (n + 1)
        | none => if suff.isPrefixOf rest then some 1 else none
      else none

/-- Python `re.search` for `([class]+)suffix`: try start positions left to
right and return the first group found. -/
def searchEntity (suff : List Char) : List Char → Option String
  | [] => none
  | c :: rest =>
      match matchClassPlus suff (c :: rest) with
      | some n => some ((c :: rest).take n).asString
      | none => searchEntity suff rest

/-- ASCII letter, the class of `re.findall(r"[A-Za-z]{2,}", ...)`. -/
def isAsciiLetter (c : Char) : Bool :=
  ('A' ≤ c ∧ c ≤ 'Z') ∨ ('a' ≤ c ∧ c ≤ 'z')

/-- First token found by `re.findall(r"[A-Za-z]{2,}", ...)`: the first
maximal run of ASCII letters of length at least two. -/
def firstAsciiTokenGo : Nat → List Char → Option String
  | _, [] => none
  | 0, _ => none
  | fuel + 1, c :: rest =>
      if isAsciiLetter c then
        let run := (c :: rest).takeWhile isAsciiLetter
        if 2 ≤ run.length then some run.asString
        else firstAsciiTokenGo fuel (rest.dropWhile isAsciiLetter)
      else firstAsciiTokenGo fuel rest

/-- Entry point with enough fuel for the whole list (every step consumes at
least one character, so the zero-fuel arm is unreachable). -/
def firstAsciiToken (cs : List Char) : Option String :=
  firstAsciiTokenGo cs.length cs

/-- Helper function `_infer_target_entity`: try the four suffix patterns in
order, then fall back to the first ASCII token of length at least two. -/
def _infer_target_entity (user_request : String) : Option String :=
  if user_request = "" then none
  else
    let cs := user_request.toList
    match searchEntity ['社'] cs with
    | some g => some g
    | none =>
        match searchEntity ['向', 'け'] cs with
        | some g => some g
        | none =>
            match searchEntity ['様'] cs with
            | some g => some g
            | none =>
                match searchEntity ['の'] cs with
                | some g => some g
                | none => firstAsciiToken cs

/-! ## Content generation (`SlideContentGenerator`) -/

/-- Behaviour of one `web_search` call on the collaborator: raise, return
`None`, or return a response with optional text and citation urls (a `none`
url models a citation without a `url` attribute). -/
inductive WebCallOutcome where
  | raises : WebCallOutcome
  | returnsNone : WebCallOutcome
  | returns : Option String → List (Option String) → WebCallOutcome

/-- LLM collaborator as `SlideContentGenerator` sees it: the behaviour of a
`generate_structured_output` call and, when the client exposes the
capability, of a `web_search` call (`none` models a client without the
`web_search` attribute). -/
structure ContentClient where
  structured : StructuredCallOutcome
  web : Option WebCallOutcome := none

/-- Method `SlideContentGenerator._maybe_perform_web_search` (the slide and
the user request only shape the search prompt, which the outcome model
absorbs); returns the snippet and the number of `web_search` calls made. -/
def _maybe_perform_web_search (client : Option ContentClient)
    (ctx : GenerationContext) : Option String × Nat :=
  if ¬ ctx.perform_web_search then (none, 0)
  else
    match client with
    | none => (none, 0)
    | some cl =>
        match cl.web with
        | none => (none, 0)
        | some .raises => (none, 1)
        | some .returnsNone => (none, 1)
        | some (.returns txt cits) =>
            if strOptTruthy txt then (txt, 1)
            else
              let urls := cits.filterMap id
              if urls.isEmpty then (none, 1)
              else (some ("検索結果: " ++ String.intercalate ", " urls), 1)

/-- Entry stored in `llm_results` for one placeholder name returned by the
LLM. -/
structure LlmEntry where
  text : String
  references : List String
deriving DecidableEq

/-- Python dict assignment `llm_results[name] = ...` (replace in place or
append). -/
def insertResult (m : List (String × LlmEntry)) (k : String) (v : LlmEntry) :
    List (String × LlmEntry) :=
  match m with
  | [] => [(k, v)]
  | (k0, v0) :: rest =>
      if k0 = k then (k0, v) :: rest else (k0, v0) :: insertResult rest k v

/-- Python `list(v)` where a list of strings is expected: non-string items
would be ill-typed downstream and are outside the model's universe; a string
iterates to its characters, a dict to its keys; anything else is not
iterable. -/
def pyStrList : Value → Except PyError (List String)
  | .arr xs => .ok (xs.map (Value.asStrD ""))
  | .str s => .ok (s.toList.map (fun c => String.mk [c]))
  | .obj fs => .ok (fs.map Prod.fst)
  | _ => .error (.typeError "object is not iterable")

/-- Python iteration over `parsed.get("placeholders", [])`, keeping the
items as values. -/
def pyIter : Value → Except PyError (List Value)
  | .arr xs => .ok xs
  | .str s => .ok (s.toList.map (fun c => Value.str (String.mk [c])))
  | .obj fs => .ok (fs.map (fun p => Value.str p.1))
  | _ => .error (.typeError "object is not iterable")

/-- Loop `for item in placeholders` of `_generate_content_for_asset`,
building `llm_results` left to right.  The boolean is `false` when an
exception aborts the surrounding `try` block (a non-dict item, an
unhashable name, a non-iterable references value); entries accumulated
before the exception are kept, as the Python dict outlives the `try`. -/
def collectResults : List Value → List (String × LlmEntry) →
    List (String × LlmEntry) × Bool
  | [], acc => (acc, true)
  | .obj fields :: rest, acc =>
      let nameV : Option Value :=
        if optTruthy (dictGet fields "placeholder_name") then
          dictGet fields "placeholder_name"
        else if optTruthy (dictGet fields "name") then dictGet fields "name"
        else none
      (match nameV with
       | none => collectResults rest acc
       | some (.str name) =>
           let text := if optTruthy (dictGet fields "text") then
                         (dictGetD fields "text" .null).asStrD ""
                       else (dictGetD fields "content" (.str "")).asStrD ""
           let refsV := if optTruthy (dictGet fields "references") then
                          dictGetD fields "references" .null
                        else if optTruthy (dictGet fields "citations") then
                          dictGetD fields "citations" .null
                        else .arr []
           (match pyStrList refsV with
            | .error _ => (acc, false)
            | .ok refs => collectResults rest (insertResult acc name ⟨text, refs⟩))
       | some (.arr _) => (acc, false)
       | some (.obj _) => (acc, false)
       | some _ => collectResults rest acc)
  | _ :: _, acc => (acc, false)

/-- Observable outcome of the `try` block of `_generate_content_for_asset`:
the `llm_results` dict, `slide_summary` (`some` iff truthy) and
`slide_citations`. -/
structure LlmPhase where
  results : List (String × LlmEntry)
  summary : Option Value
  citations : List String

/-- The `try` block of `_generate_content_for_asset` run against one
structured-output call: any exception — a raise from the collaborator, or a
malformed payload shape — leaves the values accumulated so far and is
swallowed (`except Exception` with a log). -/
def runStructuredPhase (outcome : StructuredCallOutcome) : LlmPhase :=
  match outcome with
  | .raises => ⟨[], none, []⟩
  | .returns resp =>
      match extract_parsed_output resp with
      | none => ⟨[], none, []⟩
      | some v =>
          if ¬ v.truthy then ⟨[], none, []⟩
          else
            match v with
            | .obj fields =>
                (match pyIter (dictGetD fields "placeholders" (.arr [])) with
                 | .error _ => ⟨[], none, []⟩
                 | .ok items =>
                     match collectResults items [] with
                     | (acc, false) => ⟨acc, none, []⟩
                     | (acc, true) =>
                         let summary :=
                           if optTruthy (dictGet fields "slide_summary") then
                             dictGet fields "slide_summary"
                           else if optTruthy (dictGet fields "summary") then
                             dictGet fields "summary"
                           else none
                         match pyStrList (dictGetD fields "citations" (.arr [])) with
                         | .error _ => ⟨acc, summary, []⟩
                         | .ok cits => ⟨acc, summary, cits⟩)
            | _ => ⟨[], none, []⟩

/-- Dict lookup in `llm_results`. -/
def lookupResult (m : List (String × LlmEntry)) (k : String) : Option LlmEntry :=
  (m.find? (fun p => p.1 = k)).map Prod.snd

/-- Resolution of one placeholder spec in the output loop of
`_generate_content_for_asset`: `generate` uses the LLM entry with the spec
description as fallback, `fixed` and `populate` are deterministic rewrites
of the description, any other policy copies the description; every text is
`strip()`ped. -/
def resolvePlaceholder (results : List (String × LlmEntry))
    (target_company : Option String) (t : Today) (spec : PlaceholderSpec) :
    SlidePlaceholderContent :=
  let policy := pyLower spec.edit_policy
  if policy = "generate" then
    let generated := lookupResult results spec.name
    let text := match generated with
                | some e => if e.text = "" then spec.description else e.text
                | none => spec.description
    let references := match generated with
                      | some e => e.references
                      | none => []
    ⟨spec.name, pyStrip text, policy, references⟩
  else if policy = "fixed" then
    ⟨spec.name, pyStrip (_normalize_fixed_text spec.description), policy, []⟩
  else if policy = "populate" then
    ⟨spec.name, pyStrip (_populate_with_context spec.description target_company t),
     policy, []⟩
  else
    ⟨spec.name, pyStrip spec.description, policy, []⟩

/-- The effective target company of `_generate_content_for_asset`:
`context.target_company or _infer_target_entity(context.user_request)`. -/
def effectiveTargetCompany (ctx : GenerationContext) : Option String :=
  match ctx.target_company with
  | some s => if s = "" then _infer_target_entity ctx.user_request else some s
  | none => _infer_target_entity ctx.user_request

/-- Method `SlideContentGenerator._generate_content_for_asset`: returns the
filled placeholder list, the slide's updated notes dict, and the number of
`generate_structured_output` calls made.  The structured call happens only
when the asset has generate-policy placeholders and a client is configured;
the prompt (which absorbs the research snippet and internal document) has no
observable effect beyond the collaborator outcome. -/
def _generate_content_for_asset (client : Option ContentClient) (slide : SlidePage)
    (asset : SlideAsset) (ctx : GenerationContext) (t : Today) :
    List SlidePlaceholderContent × List (String × Value) × Nat :=
  let editable := asset.placeholders.filter
    (fun ph => pyLower ph.edit_policy = "generate")
  let phase : LlmPhase × Nat :=
    if editable.isEmpty then (⟨[], none, []⟩, 0)
    else
      match client with
      | some cl => (runStructuredPhase cl.structured, 1)
      | none => (⟨[], none, []⟩, 0)
  let contents := asset.placeholders.map
    (resolvePlaceholder phase.1.results (effectiveTargetCompany ctx) t)
  let notes1 := match phase.1.summary with
                | some v => dictSet slide.notes "summary" v
                | none => slide.notes
  let notes2 := if phase.1.citations.isEmpty then notes1
                else dictSet notes1 "citations" (.arr (phase.1.citations.map Value.str))
  (contents, notes2, phase.2)

/-- Method `SlideDocument.get_slide`: first slide with the given id. -/
def SlideDocument.get_slide (d : SlideDocument) (slide_id : String) :
    Option SlidePage :=
  d.slides.find? (fun s => s.slide_id = slide_id)

/-- The replace-or-append loop of `SlideDocument.upsert_slide`: replace the
first slide sharing the id in place, else append. -/
def replaceOrAppend : List SlidePage → SlidePage → List SlidePage
  | [], s => [s]
  | x :: xs, s =>
      if x.slide_id = s.slide_id then s :: xs else x :: replaceOrAppend xs s

/-- Method `SlideDocument.upsert_slide`: replace in place or append, then
re-sort stably by `page_number`. -/
def SlideDocument.upsert_slide (d : SlideDocument) (s : SlidePage) : SlideDocument :=
  { d with slides := sortByPage (replaceOrAppend d.slides s) }

/-- Insertion into a strictly increasing list of strings, keeping it
strictly increasing. -/
def sortedInsert (x : String) : List String → List String
  | [] => [x]
  | y :: ys => if x = y then y :: ys
               else if x < y then x :: y :: ys
               else y :: sortedInsert x ys

/-- Python `sorted(set(l))` for strings: the strictly increasing enumeration
of `l`'s elements (string comparison is lexicographic by code point in both
Python and Lean, and both sides produce the unique sorted duplicate-free
listing of the element set). -/
def pySortedSet (l : List String) : List String :=
  l.foldl (fun acc s => sortedInsert s acc) []

/-- Method `SlideContentGenerator._accumulate_references`: a no-op for an
empty citation list, else the references entry becomes the sorted
deduplicated union of its previous elements and the citations. -/
def _accumulate_references (doc : SlideDocument) (citations : List String) :
    SlideDocument :=
  if citations.isEmpty then doc
  else
    let existing := (dictGetD doc.metadata "references" (.arr [])).asStrList
    let merged := pySortedSet (existing ++ citations)
    { doc with metadata := dictSet doc.metadata "references" (.arr (merged.map Value.str)) }

/-- Method `SlideContentGenerator.generate_for_slide`.  Returns the updated
document (or the propagated error) and the total number of collaborator
calls (`web_search` plus `generate_structured_output`) made.  Python
mutates the slide object in place and then upserts it; the functional
reading below replaces the first slide with that id, which coincides with
the in-place mutation because `get_slide` returns exactly that first
slide. -/
def generate_for_slide (lib : SlideLibrary) (client : Option ContentClient)
    (t : Today) (doc : SlideDocument) (slide_id : String)
    (ctx : GenerationContext) : Except PyError SlideDocument × Nat :=
  match doc.get_slide slide_id with
  | none => (.error (.keyError ("Slide '" ++ slide_id ++ "' not found in document")), 0)
  | some slide =>
      match lib.get_asset slide.asset_id with
      | none => (.error (.keyError ("Unknown slide asset id: " ++ slide.asset_id)), 0)
      | some asset =>
          let ws := _maybe_perform_web_search client ctx
          let gen := _generate_content_for_asset client slide asset ctx t
          let notes3 := dictSetdefault gen.2.1 "citations" (.arr [])
          let notes4 := dictSetdefault notes3 "summary" .null
          let notes5 := if strOptTruthy ctx.additional_notes then
                          dictSet notes4 "user_notes" (.str (ctx.additional_notes.getD ""))
                        else notes4
          let slide2 := { slide with placeholders := gen.1, notes := notes5 }
          let doc1 := doc.upsert_slide slide2
          let doc2 := _accumulate_references doc1
            ((dictGetD notes5 "citations" (.arr [])).asStrList)
          (.ok doc2, ws.2 + gen.2.2)

/-- Loop of `SlideContentGenerator.generate_for_document` over a snapshot of
the slide list; an error from any single slide propagates. -/
def generateForSlides (lib : SlideLibrary) (client : Option ContentClient)
    (t : Today) (ctx : GenerationContext) :
    List SlidePage → SlideDocument → Except PyError SlideDocument × Nat
  | [], doc => (.ok doc, 0)
  | s :: rest, doc =>
      match generate_for_slide lib client t doc s.slide_id ctx with
      | (.error e, n) => (.error e, n)
      | (.ok doc1, n) =>
          match generateForSlides lib client t ctx rest doc1 with
          | (r, m) => (r, n + m)

/-- Method `SlideContentGenerator.generate_for_document`. -/
def generate_for_document (lib : SlideLibrary) (client : Option ContentClient)
    (t : Today) (doc : SlideDocument) (ctx : GenerationContext) :
    Except PyError SlideDocument × Nat :=
  generateForSlides lib client t ctx doc.slides doc

/-- An outline payload entry the `_build_slides_from_parsed` loop skips
silently: a non-dict entry, or a dict whose `asset_id` is absent or falsy. -/
def entrySkippable : Value → Bool
  | .obj fields => ¬ optTruthy (dictGet fields "asset_id")
  | _ => true

/-- A structured-output collaborator failure as C3 describes it: the call
raises, or it returns a response with no usable payload (unparsable or
falsy). -/
def structuredFailure : StructuredCallOutcome → Prop
  | .raises => True
  | .returns r => optTruthy (extract_parsed_output r) = false

/-! ## Concrete fixtures for witnesses and counterexamples -/

/-- Catalog asset with one generate-policy placeholder. -/
def asset1 : SlideAsset :=
  { asset_id := "a1", file_name := "a1.pptx", description := "表紙テンプレート",
    category := none, tags := [],
    placeholders := [⟨"P1", 0, "説明文", "generate"⟩] }

/-- Catalog asset with one populate-policy placeholder. -/
def asset2 : SlideAsset :=
  { asset_id := "a2", file_name := "a2.pptx", description := "本文テンプレート",
    category := none, tags := [],
    placeholders := [⟨"Q1", 0, "相手企業名向け資料", "populate"⟩] }

/-- Two-asset catalog. -/
def lib1 : SlideLibrary := ⟨[("a1", asset1), ("a2", asset2)]⟩

/-- Minimal generation context. -/
def ctx0 : GenerationContext := { user_request := "テスト" }

/-- Context that turns the web-search flag on. -/
def ctxWeb : GenerationContext := { user_request := "テスト", perform_web_search := true }

/-- Context naming ACME in the request, with no target company. -/
def ctxA : GenerationContext := { user_request := "ACME社の件" }

/-- Context naming BETA in the request, with no target company. -/
def ctxB : GenerationContext := { user_request := "BETA社の件" }

/-- Fixed generation date. -/
def t0 : Today := ⟨2026, 10⟩

/-- Client whose structured-output call raises. -/
def clRaises : ContentClient := { structured := .raises }

/-- Client whose structured-output call raises and that also exposes a
working `web_search`. -/
def clWeb : ContentClient :=
  { structured := .raises, web := some (.returns (some "検索要約") []) }

/-- Response with a falsy `parsed_output` and unparsable text. -/
def respUnparsable : StructuredOutputResponse := ⟨.null, .unparsable⟩

/-- Structured-output payload whose only entry has an asset id missing from
the catalog. -/
def badPayload : Value :=
  .obj [("slides", .arr [.obj [("asset_id", .str "zzz")]])]

/-- Structured-output payload whose only entry has `page_number` 5 and no
`slide_id`. -/
def page5Payload : Value :=
  .obj [("slides", .arr [.obj [("asset_id", .str "a1"), ("page_number", .int 5)]])]

/-- Slide bound to the generate-policy asset. -/
def slideG : SlidePage :=
  { slide_id := "s1", page_number := 1, asset_id := "a1", asset_file := "a1.pptx",
    title := none, placeholders := [], notes := [] }

/-- Document holding `slideG`. -/
def docG : SlideDocument := ⟨[slideG], []⟩

/-- Slide bound to the populate-policy asset. -/
def slideP : SlidePage := { slideG with asset_id := "a2" }

/-- Document holding `slideP`. -/
def docP : SlideDocument := ⟨[slideP], []⟩

/-- Document whose slide references an asset id missing from the catalog. -/
def docBadAsset : SlideDocument := ⟨[{ slideG with asset_id := "zzz" }], []⟩

/-- Document whose slide carries a pre-existing citation in its notes. -/
def docNotesCit : SlideDocument :=
  ⟨[{ slideG with notes := [("citations", .arr [.str "old"])] }], []⟩

/-- Document whose metadata references list is unsorted. -/
def docRef : SlideDocument :=
  ⟨[slideP], [("references", .arr [.str "b", .str "a"])]⟩

/-- Slide `x` at page 5 (first duplicate). -/
def pgA : SlidePage :=
  { slide_id := "x", page_number := 5, asset_id := "a1", asset_file := "f",
    title := some "A", placeholders := [], notes := [] }

/-- Slide `x` at page 1 (second duplicate). -/
def pgB : SlidePage := { pgA with page_number := 1, title := some "B" }

/-- Replacement slide `x` at page 3. -/
def pgS : SlidePage := { pgA with page_number := 3, title := some "S" }

/-- Document with two slides sharing `slide_id` `x`. -/
def docDup : SlideDocument := ⟨[pgA, pgB], []⟩

/-- Asset whose generate-policy placeholder has an empty description. -/
def assetE : SlideAsset :=
  { asset_id := "e1", file_name := "e1.pptx", description := "空の説明",
    category := none, tags := [],
    placeholders := [⟨"P1", 0, "", "generate"⟩] }

/-- One-asset catalog around `assetE`. -/
def libE : SlideLibrary := ⟨[("e1", assetE)]⟩

/-- Document holding a slide bound to `assetE`. -/
def docE : SlideDocument := ⟨[{ slideG with asset_id := "e1" }], []⟩

/-- Client whose structured output parses but contains no placeholder
entries. -/
def clNoEntries : ContentClient :=
  { structured := .returns (some ⟨.obj [("placeholders", .arr [])], .empty⟩) }

/-- The slide produced for the minimal accepted entry at position 1. -/
def pageW : SlidePage :=
  { slide_id := "slide_01", page_number := 1, asset_id := "a1",
    asset_file := "a1.pptx", title := none, placeholders := [], notes := [] }

/-- The document produced by the fallback outline over `lib1`. -/
def docU : SlideDocument :=
  ⟨fallback_outline lib1.list_assets "構成", [("slide_structure", .str "構成")]⟩

/-- Catalog asset with no placeholders at all. -/
def asset0 : SlideAsset :=
  { asset_id := "a0", file_name := "a0.pptx", description := "白紙",
    category := none, tags := [], placeholders := [] }

/-- One-asset catalog around `asset0`. -/
def lib0 : SlideLibrary := ⟨[("a0", asset0)]⟩

/-- Slide bound to the placeholder-free asset. -/
def slide0 : SlidePage :=
  { slide_id := "s0", page_number := 1, asset_id := "a0", asset_file := "a0.pptx",
    title := none, placeholders := [], notes := [] }

/-- Document holding `slide0`, with empty metadata. -/
def doc0 : SlideDocument := ⟨[slide0], []⟩

/-- The document `generate_for_slide` produces from `doc0` with no client. -/
def doc0Out : SlideDocument :=
  ⟨[{ slide0 with notes := [("citations", .arr []), ("summary", .null)] }], []⟩

/-! ## Theorems -/

theorem placeholder_content_roundtrip (c : SlidePlaceholderContent) :
    SlidePlaceholderContent.from_dict c.to_dict = c := by
  cases c with
  | mk name text policy references =>
      simp [SlidePlaceholderContent.to_dict, SlidePlaceholderContent.from_dict,
        dictGetD, dictGet, List.find?, Value.asStrD, Value.asStrList]
      induction references with
      | nil => rfl
      | cons r rs ih => simpa [Value.asStrD] using ih

theorem slide_page_roundtrip (p : SlidePage) :
    SlidePage.from_dict p.to_dict = p := by
  cases p with
  | mk slide_id page_number asset_id asset_file title placeholders notes =>
      simp [SlidePage.to_dict, SlidePage.from_dict, dictGetD, dictGet,
        List.find?, Value.asStrD, Value.asIntD]
      refine ⟨?_, ?_⟩
      · cases title <;> rfl
      · induction placeholders with
        | nil => rfl
        | cons c cs ih => simpa [placeholder_content_roundtrip c] using ih

/-- C5: for every SlideDocument `d` (all slides, placeholder contents, notes,
metadata, and the `None`/empty distinctions of optional fields such as
`title`), `SlideDocument.from_dict (d.to_dict)` equals `d` field-for-field. -/
theorem slide_document_roundtrip (d : SlideDocument) :
    SlideDocument.from_dict d.to_dict = d := by
  cases d with
  | mk slides metadata =>
      simp [SlideDocument.to_dict, SlideDocument.from_dict, dictGet, List.find?]
      induction slides with
      | nil => rfl
      | cons p ps ih => simpa [slide_page_roundtrip p] using ih

theorem dictGet_nil (key : String) : dictGet [] key = none := rfl

theorem dictGet_cons (k0 : String) (w : Value) (rest : List (String × Value))
    (key : String) :
    dictGet ((k0, w) :: rest) key = if k0 = key then some w else dictGet rest key := by
  unfold dictGet
  rcases eq_or_ne k0 key with h | h
  · rw [List.find?_cons_of_pos _ (by simpa using h), if_pos h]
    rfl
  · rw [List.find?_cons_of_neg _ (by simpa using h), if_neg h]

theorem dictGet_append (m1 m2 : List (String × Value)) (key : String) :
    dictGet (m1 ++ m2) key =
      match dictGet m1 key with
      | some v => some v
      | none => dictGet m2 key := by
  induction m1 with
  | nil => simp [dictGet_nil]
  | cons p rest ih =>
      obtain ⟨k0, w⟩ := p
      rcases eq_or_ne k0 key with h | h
      · simp [dictGet_cons, h]
      · simpa [dictGet_cons, h] using ih

theorem dictSet_cons (k0 : String) (w : Value) (rest : List (String × Value))
    (key : String) (v : Value) :
    dictSet ((k0, w) :: rest) key v =
      if k0 = key then (k0, v) :: rest else (k0, w) :: dictSet rest key v := rfl

theorem dictGet_dictSet_self (m : List (String × Value)) (k : String) (v : Value) :
    dictGet (dictSet m k v) k = some v := by
  induction m with
  | nil => simp [dictSet, dictGet_cons]
  | cons p rest ih =>
      obtain ⟨k0, w⟩ := p
      rw [dictSet_cons]
      by_cases h : k0 = k
      · rw [if_pos h, dictGet_cons, if_pos h]
      · rw [if_neg h, dictGet_cons, if_neg h]
        exact ih

theorem dictGet_dictSet_ne (m : List (String × Value)) (k k' : String) (v : Value)
    (h : k' ≠ k) : dictGet (dictSet m k v) k' = dictGet m k' := by
  have hkk : ¬ k = k' := fun hh => h hh.symm
  induction m with
  | nil => simp [dictSet, dictGet_cons, dictGet_nil, hkk]
  | cons p rest ih =>
      obtain ⟨k0, w⟩ := p
      rw [dictSet_cons]
      by_cases h0 : k0 = k
      · subst h0
        rw [if_pos rfl, dictGet_cons, dictGet_cons, if_neg hkk, if_neg hkk]
      · rw [if_neg h0, dictGet_cons, dictGet_cons]
        by_cases h1 : k0 = k'
        · rw [if_pos h1, if_pos h1]
        · rw [if_neg h1, if_neg h1]
          exact ih

theorem dictGet_setdefault (m : List (String × Value)) (k : String) (v : Value) :
    dictGet (dictSetdefault m k v) k = some (dictGetD m k v) := by
  unfold dictSetdefault dictGetD
  cases hm : dictGet m k with
  | some w => simp [hm]
  | none => simp [dictGet_append, hm, dictGet_cons]

theorem dictGet_setdefault_ne (m : List (String × Value)) (k k' : String) (v : Value)
    (h : k' ≠ k) : dictGet (dictSetdefault m k v) k' = dictGet m k' := by
  unfold dictSetdefault
  cases hm : dictGet m k with
  | some w => rfl
  | none =>
      rw [dictGet_append]
      cases hk : dictGet m k' with
      | some w => rfl
      | none =>
          rw [dictGet_cons, if_neg (fun hh => h hh.symm)]
          exact dictGet_nil k'

theorem mem_sortedInsert (x y : String) (l : List String) :
    y ∈ sortedInsert x l ↔ y = x ∨ y ∈ l := by
  induction l with
  | nil => simp [sortedInsert]
  | cons z zs ih =>
      unfold sortedInsert
      by_cases h1 : x = z
      · subst h1
        rw [if_pos rfl]
        simp only [List.mem_cons]
        all_goals tauto
      · rw [if_neg h1]
        by_cases h2 : x < z
        · rw [if_pos h2]
          simp only [List.mem_cons]
        · rw [if_neg h2]
          simp only [List.mem_cons, ih]
          all_goals tauto

theorem pairwise_sortedInsert (x : String) (l : List String)
    (h : l.Pairwise (· < ·)) : (sortedInsert x l).Pairwise (· < ·) := by
  induction l with
  | nil => simp [sortedInsert]
  | cons z zs ih =>
      rw [List.pairwise_cons] at h
      unfold sortedInsert
      by_cases h1 : x = z
      · rw [if_pos h1]
        exact List.Pairwise.cons h.1 h.2
      · rw [if_neg h1]
        by_cases h2 : x < z
        · rw [if_pos h2]
          refine List.Pairwise.cons ?_ (List.Pairwise.cons h.1 h.2)
          intro w hw
          rcases List.mem_cons.mp hw with hw | hw
          · exact hw ▸ h2
          · exact lt_trans h2 (h.1 w hw)
        · rw [if_neg h2]
          have hzx : z < x := by
            rcases lt_trichotomy x z with hc | hc | hc
            · exact absurd hc h2
            · exact absurd hc h1
            · exact hc
          refine List.Pairwise.cons ?_ (ih h.2)
          intro w hw
          rcases (mem_sortedInsert x w zs).mp hw with hw | hw
          · exact hw ▸ hzx
          · exact h.1 w hw

theorem pairwise_pySortedSet_aux (l : List String) (acc : List String)
    (hacc : acc.Pairwise (· < ·)) :
    (l.foldl (fun a s => sortedInsert s a) acc).Pairwise (· < ·) := by
  induction l generalizing acc with
  | nil => simpa using hacc
  | cons z zs ih => exact ih _ (pairwise_sortedInsert z acc hacc)

theorem pairwise_pySortedSet (l : List String) :
    (pySortedSet l).Pairwise (· < ·) :=
  pairwise_pySortedSet_aux l [] (List.Pairwise.nil)

theorem mem_pySortedSet_aux (l acc : List String) (x : String)
    (hx : x ∈ acc ∨ x ∈ l) :
    x ∈ l.foldl (fun a s => sortedInsert s a) acc := by
  induction l generalizing acc with
  | nil => simpa using hx
  | cons z zs ih =>
      simp only [List.foldl_cons]
      refine ih (sortedInsert z acc) ?_
      rcases hx with hx | hx
      · exact Or.inl ((mem_sortedInsert z x acc).mpr (Or.inr hx))
      · rcases List.mem_cons.mp hx with hx | hx
        · exact Or.inl ((mem_sortedInsert z x acc).mpr (Or.inl hx))
        · exact Or.inr hx

theorem mem_pySortedSet (l : List String) (x : String) (hx : x ∈ l) :
    x ∈ pySortedSet l :=
  mem_pySortedSet_aux l [] x (Or.inr hx)

theorem mem_insertByPage (p x : SlidePage) (l : List SlidePage) :
    x ∈ insertByPage p l ↔ x = p ∨ x ∈ l := by
  induction l with
  | nil => simp [insertByPage]
  | cons q qs ih =>
      unfold insertByPage
      by_cases h : q.page_number < p.page_number
      · rw [if_pos h]
        simp only [List.mem_cons, ih]
        tauto
      · rw [if_neg h]
        simp only [List.mem_cons]

theorem pairwise_insertByPage (p : SlidePage) (l : List SlidePage)
    (h : l.Pairwise (fun a b => a.page_number ≤ b.page_number)) :
    (insertByPage p l).Pairwise (fun a b => a.page_number ≤ b.page_number) := by
  induction l with
  | nil => simp [insertByPage]
  | cons q qs ih =>
      rw [List.pairwise_cons] at h
      unfold insertByPage
      by_cases hq : q.page_number < p.page_number
      · rw [if_pos hq]
        refine List.Pairwise.cons ?_ (ih h.2)
        intro x hx
        rcases (mem_insertByPage p x qs).mp hx with rfl | hx
        · exact le_of_lt hq
        · exact h.1 x hx
      · rw [if_neg hq]
        refine List.Pairwise.cons ?_ (List.Pairwise.cons h.1 h.2)
        intro x hx
        rcases List.mem_cons.mp hx with rfl | hx
        · omega
        · exact le_trans (by omega) (h.1 x hx)

theorem sortByPage_pairwise (l : List SlidePage) :
    (sortByPage l).Pairwise (fun a b => a.page_number ≤ b.page_number) := by
  induction l with
  | nil => simp [sortByPage]
  | cons p ps ih => exact pairwise_insertByPage p _ ih

theorem insertByPage_of_le (p : SlidePage) (l : List SlidePage)
    (hle : ∀ q ∈ l, p.page_number ≤ q.page_number) :
    insertByPage p l = p :: l := by
  cases l with
  | nil => rfl
  | cons q qs =>
      unfold insertByPage
      rw [if_neg (by have := hle q (by simp); omega)]

theorem sortByPage_of_pairwise (l : List SlidePage)
    (h : l.Pairwise (fun a b => a.page_number ≤ b.page_number)) :
    sortByPage l = l := by
  induction l with
  | nil => rfl
  | cons p ps ih =>
      rw [List.pairwise_cons] at h
      show insertByPage p (sortByPage ps) = p :: ps
      rw [ih h.2]
      exact insertByPage_of_le p ps h.1

theorem mem_sortByPage (l : List SlidePage) (p : SlidePage) :
    p ∈ sortByPage l ↔ p ∈ l := by
  induction l with
  | nil => simp [sortByPage]
  | cons q qs ih => simp [sortByPage, mem_insertByPage, ih]

theorem fallbackPages_ne_nil (s : String) (idx : Nat) (a : SlideAsset)
    (rest : List SlideAsset) : fallbackPages s idx (a :: rest) ≠ [] := by
  simp [fallbackPages]

theorem fallback_outline_ne_nil (assets : List SlideAsset) (s : String)
    (h : assets ≠ []) : fallback_outline assets s ≠ [] := by
  cases assets with
  | nil => exact absurd rfl h
  | cons a rest =>
      unfold fallback_outline
      rw [List.take_succ_cons]
      exact fallbackPages_ne_nil s 1 a (rest.take 1)

theorem fallbackPages_page_ge (s : String) (l : List SlideAsset) :
    ∀ idx : Nat, ∀ p ∈ fallbackPages s idx l, (idx : Int) ≤ p.page_number := by
  induction l with
  | nil =>
      intro idx p hp
      simp [fallbackPages] at hp
  | cons a rest ih =>
      intro idx p hp
      simp only [fallbackPages] at hp
      rcases List.mem_cons.mp hp with hp | hp
      · subst hp
        simp
      · have h2 := ih (idx + 1) p hp
        have h3 : ((idx : Int)) ≤ ((idx + 1 : Nat) : Int) := by omega
        exact le_trans h3 h2

theorem fallbackPages_pairwise (s : String) (l : List SlideAsset) :
    ∀ idx : Nat, (fallbackPages s idx l).Pairwise
      (fun a b => a.page_number ≤ b.page_number) := by
  induction l with
  | nil =>
      intro idx
      simp [fallbackPages]
  | cons a rest ih =>
      intro idx
      simp only [fallbackPages]
      refine List.Pairwise.cons ?_ (ih (idx + 1))
      intro p hp
      have h2 := fallbackPages_page_ge s rest (idx + 1) p hp
      show (idx : Int) ≤ p.page_number
      have h3 : ((idx : Int)) ≤ ((idx + 1 : Nat) : Int) := by omega
      exact le_trans h3 h2

/-- C10: when the slide library catalog has no assets, `generate_outline`
raises `RuntimeError` before any LLM interaction (zero collaborator calls),
for every client, structure text and context. -/
theorem generate_outline_empty_catalog (lib : SlideLibrary)
    (client : Option StructuredCallOutcome) (s : String) (ctx : GenerationContext)
    (h : lib.list_assets = []) :
    generate_outline lib client s ctx =
      (.error (.runtimeError "スライドライブラリにアセットが存在しません。"), 0) := by
  simp [generate_outline, h]

/-- Witness for `generate_outline_empty_catalog` at the empty catalog. -/
theorem generate_outline_empty_catalog_witness :
    (⟨[]⟩ : SlideLibrary).list_assets = [] ∧
    generate_outline ⟨[]⟩ (some .raises) "構成" ctx0 =
      (.error (.runtimeError "スライドライブラリにアセットが存在しません。"), 0) :=
  ⟨rfl, generate_outline_empty_catalog ⟨[]⟩ (some .raises) "構成" ctx0 rfl⟩

theorem build_slides_ok_ne_nil (lib : SlideLibrary) (v : Value)
    (slides : List SlidePage) (hne : lib.list_assets ≠ [])
    (h : build_slides_from_parsed lib v = .ok slides) : slides ≠ [] := by
  unfold build_slides_from_parsed at h
  split at h
  · exact absurd h (by simp)
  · split at h
    · exact absurd h (by simp)
    · next pages heq2 =>
        simp only [] at h
        split at h
        · have hfb : fallback_outline lib.list_assets "" = slides := by
            simpa using h
          rw [← hfb]
          exact fallback_outline_ne_nil lib.list_assets "" hne
        · next hnem =>
            have hsp : sortByPage pages = slides := by simpa using h
            rw [← hsp]
            intro hcon
            exact hnem (by simp [hcon])

/-- C1 (amended): whenever `generate_outline` returns a document, that
document has at least one slide; and a collaborator response whose payload
is falsy or unparsable yields exactly the deterministic two-asset fallback
outline.  (As stated, the claim is false: an exception raised by the
structured-output collaborator propagates out of `generate_outline` instead
of triggering the fallback — see the counterexample.) -/
theorem generate_outline_ok_nonempty (lib : SlideLibrary)
    (client : Option StructuredCallOutcome) (s : String) (ctx : GenerationContext)
    (doc : SlideDocument)
    (hok : (generate_outline lib client s ctx).1 = .ok doc) :
    doc.slides ≠ [] ∧
    (∀ r, client = some (.returns r) →
       optTruthy (extract_parsed_output r) = false →
       doc.slides = fallback_outline lib.list_assets s) := by
  unfold generate_outline at hok
  by_cases hemp : lib.list_assets.isEmpty
  · rw [if_pos hemp] at hok
    exact absurd hok (by simp)
  · rw [if_neg hemp] at hok
    have hne : lib.list_assets ≠ [] := fun hh => by simp [hh] at hemp
    cases client with
    | none =>
        have hdoc : doc = ⟨fallback_outline lib.list_assets s,
            [("slide_structure", .str s)]⟩ := by
          simpa using hok.symm
        subst hdoc
        exact ⟨fallback_outline_ne_nil _ s hne, fun r hr => by cases hr⟩
    | some outcome =>
        cases outcome with
        | raises => exact absurd hok (by simp)
        | returns resp =>
            simp only [] at hok
            split at hok
            · exact absurd hok (by simp)
            · next slides heqS =>
                have hdoc : doc.slides = slides := by
                  have hinj := hok.symm
                  simp only [Except.ok.injEq] at hinj
                  rw [hinj]
                constructor
                · rw [hdoc]
                  split at heqS
                  · next v hext =>
                      by_cases htr : v.truthy
                      · rw [if_pos htr] at heqS
                        exact build_slides_ok_ne_nil lib v slides hne heqS
                      · rw [if_neg htr] at heqS
                        have : fallback_outline lib.list_assets s = slides := by
                          simpa using heqS
                        rw [← this]
                        exact fallback_outline_ne_nil _ s hne
                  · have : fallback_outline lib.list_assets s = slides := by
                      simpa using heqS
                    rw [← this]
                    exact fallback_outline_ne_nil _ s hne
                · intro r hr hfal
                  have hres : r = resp := by
                    injection hr with hr1
                    injection hr1 with hr2
                    exact hr2.symm
                  subst hres
                  rw [hdoc]
                  split at heqS
                  · next v hext =>
                      rw [hext] at hfal
                      simp only [optTruthy] at hfal
                      rw [if_neg (by simp [hfal])] at heqS
                      simpa using heqS.symm
                  · simpa using heqS.symm

/-- C1 counterexample: with a non-empty two-asset catalog and a
structured-output collaborator that raises, `generate_outline` propagates
the exception — it does not return a document at all, so it does not return
one with at least one slide. -/
theorem generate_outline_raises_cex :
    (generate_outline lib1 (some .raises) "構成" ctx0).1 = .error .exception := rfl

/-- Witness for `generate_outline_ok_nonempty` at an unparsable response
over the two-asset catalog. -/
theorem generate_outline_ok_nonempty_witness :
    docU.slides ≠ [] ∧ docU.slides = fallback_outline lib1.list_assets "構成" :=
  ⟨(generate_outline_ok_nonempty lib1 (some (.returns (some respUnparsable)))
      "構成" ctx0 docU rfl).1,
   (generate_outline_ok_nonempty lib1 (some (.returns (some respUnparsable)))
      "構成" ctx0 docU rfl).2 (some respUnparsable) rfl rfl⟩

theorem buildSlidesLoop_cons_obj (lib : SlideLibrary) (idx : Nat)
    (fields : List (String × Value)) (rest : List Value) :
    buildSlidesLoop lib idx (.obj fields :: rest) =
      if optTruthy (dictGet fields "asset_id") then
        match buildSlideEntry lib idx fields with
        | .error e => .error e
        | .ok page =>
            match buildSlidesLoop lib (idx + 1) rest with
            | .error e => .error e
            | .ok pages => .ok (page :: pages)
      else buildSlidesLoop lib (idx + 1) rest := rfl

/-- C2 (amended): in the `_build_slides_from_parsed` loop, an entry that is
not a dict, or whose `asset_id` is absent or falsy, is silently skipped
(the enumeration index still advances); but an entry whose `asset_id` is a
non-empty string missing from the catalog makes the loop raise `KeyError`,
aborting the whole outline, rather than being skipped. -/
theorem buildSlidesLoop_entry (lib : SlideLibrary) (idx : Nat)
    (rest : List Value) (raw : Value) :
    (entrySkippable raw = true →
       buildSlidesLoop lib idx (raw :: rest) = buildSlidesLoop lib (idx + 1) rest) ∧
    (∀ fields a, raw = .obj fields → dictGet fields "asset_id" = some (.str a) →
       a ≠ "" → lib.get_asset a = none →
       buildSlidesLoop lib idx (raw :: rest) =
         .error (.keyError ("Unknown slide asset id: " ++ a))) := by
  constructor
  · intro hskip
    cases raw with
    | obj fields =>
        simp only [entrySkippable, decide_eq_true_eq] at hskip
        rw [buildSlidesLoop_cons_obj, if_neg hskip]
    | null => rfl
    | bool b => rfl
    | int n => rfl
    | str a => rfl
    | arr xs => rfl
  · intro fields a hraw hid hne hmiss
    subst hraw
    rw [buildSlidesLoop_cons_obj, if_pos (by simp [hid, optTruthy, Value.truthy, hne])]
    have hentry : buildSlideEntry lib idx fields =
        .error (.keyError ("Unknown slide asset id: " ++ a)) := by
      unfold buildSlideEntry
      simp [dictGetD, hid, assetKeyLookup, hmiss]
    rw [hentry]

/-- C2 counterexample: an outline entry whose `asset_id` (`"zzz"`) fails the
catalog lookup makes `_build_slides_from_parsed` — and hence the whole
`generate_outline` call — raise `KeyError`, instead of being silently
skipped. -/
theorem unknown_asset_aborts_cex :
    build_slides_from_parsed lib1 badPayload =
      .error (.keyError "Unknown slide asset id: zzz") ∧
    (generate_outline lib1 (some (.returns (some ⟨badPayload, .empty⟩)))
        "構成" ctx0).1 =
      .error (.keyError "Unknown slide asset id: zzz") := ⟨rfl, rfl⟩

/-- Witness for `buildSlidesLoop_entry`: a dict entry without `asset_id` is
skipped, and one with the unknown id `zzz` raises. -/
theorem buildSlidesLoop_entry_witness :
    (buildSlidesLoop lib1 1 [Value.obj [("title", Value.str "t")]] =
       buildSlidesLoop lib1 2 []) ∧
    (buildSlidesLoop lib1 1 [Value.obj [("asset_id", Value.str "zzz")]] =
       .error (.keyError "Unknown slide asset id: zzz")) :=
  ⟨(buildSlidesLoop_entry lib1 1 [] (Value.obj [("title", Value.str "t")])).1 rfl,
   (buildSlidesLoop_entry lib1 1 [] (Value.obj [("asset_id", Value.str "zzz")])).2
     [("asset_id", Value.str "zzz")] "zzz" rfl rfl (by decide) rfl⟩

/-- C8 counterexample: for the entry `{"asset_id": "a1", "page_number": 5}`
at enumeration position 1 the default slide id is `slide_01`, not
`slide_{page_number:02d} = slide_05` as the claim states. -/
theorem default_slide_id_cex :
    (build_slides_from_parsed lib1 page5Payload).map
        (fun l => l.map (fun p => (p.slide_id, p.page_number))) =
      .ok [("slide_01", (5 : Int))] ∧
    defaultSlideId 5 = "slide_05" ∧ ("slide_01" : String) ≠ "slide_05" :=
  ⟨rfl, rfl, by decide⟩

/-- C8 (amended): an accepted outline entry lacking a `slide_id` gets the
default `slide_{idx:02d}` formatted from its 1-based enumeration position
`idx` — not from its page number; these coincide only when the page keys
are also absent, in which case `page_number` defaults to the enumeration
position; and every slide list built from a parsed payload is sorted by
`page_number`. -/
theorem build_slides_defaults_and_sorted (lib : SlideLibrary) (idx : Nat)
    (fields : List (String × Value)) (page : SlidePage)
    (hentry : buildSlideEntry lib idx fields = .ok page)
    (hsid : dictGet fields "slide_id" = none) :
    page.slide_id = defaultSlideId idx ∧
    (dictGet fields "page_number" = none → dictGet fields "page" = none →
       page.page_number = (idx : Int)) ∧
    (∀ payload slides, build_slides_from_parsed lib payload = .ok slides →
       slides.Pairwise (fun a b => a.page_number ≤ b.page_number)) := by
  refine ⟨?_, ?_, ?_⟩
  · unfold buildSlideEntry at hentry
    split at hentry
    · exact absurd hentry (by simp)
    · simp only [] at hentry
      split at hentry
      · exact absurd hentry (by simp)
      · have hpage := Except.ok.inj hentry
        rw [← hpage]
        show strOrD (dictGet fields "slide_id") (defaultSlideId idx) = _
        rw [hsid]
        rfl
  · intro hp1 hp2
    unfold buildSlideEntry at hentry
    split at hentry
    · exact absurd hentry (by simp)
    · simp only [] at hentry
      split at hentry
      · exact absurd hentry (by simp)
      · next pnum heqP =>
          have hpage := Except.ok.inj hentry
          rw [← hpage]
          show pnum = (idx : Int)
          rw [hp1, hp2] at heqP
          simp only [optTruthy, Bool.false_eq_true, if_false] at heqP
          simpa [pyInt] using heqP.symm
  · intro payload slides h
    unfold build_slides_from_parsed at h
    split at h
    · exact absurd h (by simp)
    · split at h
      · exact absurd h (by simp)
      · next pages heq2 =>
          simp only [] at h
          split at h
          · have hfb : fallback_outline lib.list_assets "" = slides := by
              simpa using h
            rw [← hfb]
            unfold fallback_outline
            exact fallbackPages_pairwise "" (lib.list_assets.take 2) 1
          · have hsp : sortByPage pages = slides := by simpa using h
            rw [← hsp]
            exact sortByPage_pairwise pages

/-- Witness for `build_slides_defaults_and_sorted` at the minimal entry
`{"asset_id": "a1"}` in position 1 and the empty payload. -/
theorem build_slides_defaults_witness :
    pageW.slide_id = defaultSlideId 1 ∧ pageW.page_number = (1 : Int) ∧
    (fallback_outline lib1.list_assets "").Pairwise
      (fun a b => a.page_number ≤ b.page_number) :=
  ⟨(build_slides_defaults_and_sorted lib1 1 [("asset_id", Value.str "a1")]
      pageW rfl rfl).1,
   (build_slides_defaults_and_sorted lib1 1 [("asset_id", Value.str "a1")]
      pageW rfl rfl).2.1 rfl rfl,
   (build_slides_defaults_and_sorted lib1 1 [("asset_id", Value.str "a1")]
      pageW rfl rfl).2.2 (Value.obj []) (fallback_outline lib1.list_assets "") rfl⟩

theorem mem_replaceOrAppend_self (l : List SlidePage) (s : SlidePage) :
    s ∈ replaceOrAppend l s := by
  induction l with
  | nil => simp [replaceOrAppend]
  | cons x xs ih =>
      unfold replaceOrAppend
      by_cases h : x.slide_id = s.slide_id
      · rw [if_pos h]
        simp
      · rw [if_neg h]
        simp [ih]

theorem replaceOrAppend_unique (l : List SlidePage) (s : SlidePage)
    (h : (l.filter (fun x => x.slide_id = s.slide_id)).length ≤ 1) :
    ∀ x ∈ replaceOrAppend l s, x.slide_id = s.slide_id → x = s := by
  induction l with
  | nil =>
      intro x hx hid
      simp [replaceOrAppend] at hx
      exact hx
  | cons y ys ih =>
      intro x hx hid
      unfold replaceOrAppend at hx
      by_cases hy : y.slide_id = s.slide_id
      · rw [if_pos hy] at hx
        rcases List.mem_cons.mp hx with rfl | hx
        · rfl
        · exfalso
          rw [List.filter_cons_of_pos (by simp [hy])] at h
          have h0 : (ys.filter (fun x => x.slide_id = s.slide_id)).length = 0 := by
            simpa using h
          have hxf : x ∈ ys.filter (fun x => x.slide_id = s.slide_id) :=
            List.mem_filter.mpr ⟨hx, by simp [hid]⟩
          rw [List.length_eq_zero] at h0
          rw [h0] at hxf
          cases hxf
      · rw [if_neg hy] at hx
        rcases List.mem_cons.mp hx with rfl | hx
        · exact absurd hid hy
        · refine ih ?_ x hx hid
          rw [List.filter_cons_of_neg (by simp [hy])] at h
          exact h

theorem replaceOrAppend_eq_self (l : List SlidePage) (s : SlidePage)
    (hall : ∀ x ∈ l, x.slide_id = s.slide_id → x = s)
    (hex : ∃ x ∈ l, x.slide_id = s.slide_id) :
    replaceOrAppend l s = l := by
  induction l with
  | nil =>
      obtain ⟨x, hx, _⟩ := hex
      cases hx
  | cons y ys ih =>
      unfold replaceOrAppend
      by_cases hy : y.slide_id = s.slide_id
      · rw [if_pos hy, hall y (by simp) hy]
      · rw [if_neg hy]
        congr 1
        refine ih (fun x hx hid => hall x (by simp [hx]) hid) ?_
        obtain ⟨x, hx, hid⟩ := hex
        rcases List.mem_cons.mp hx with rfl | hx
        · exact absurd hid hy
        · exact ⟨x, hx, hid⟩

/-- C9 counterexample: on a document holding two slides that share
`slide_id` `x` (pages 5 and 1), upserting the identical slide (page 3)
twice does not equal upserting it once — the second pass replaces the other
duplicate. -/
theorem upsert_dup_cex :
    (docDup.upsert_slide pgS).upsert_slide pgS ≠ docDup.upsert_slide pgS := by
  intro h
  have h1 : ((docDup.upsert_slide pgS).upsert_slide pgS).slides.map
      (fun p => p.title) = [some "S", some "S"] := rfl
  rw [h] at h1
  have h2 : (docDup.upsert_slide pgS).slides.map (fun p => p.title) =
      [some "B", some "S"] := rfl
  rw [h2] at h1
  exact absurd h1 (by decide)

/-- C9 (amended): `upsert_slide` replaces in place the first slide with the
same `slide_id` (else appends) and re-sorts stably by `page_number`: the
upserted slide is in the result, the result is sorted, and — provided the
document holds at most one slide with that `slide_id`, the documented
uniqueness invariant — applying `upsert_slide` twice with the identical
slide equals applying it once.  With duplicate ids idempotence fails (see
the counterexample). -/
theorem upsert_slide_props (d : SlideDocument) (s : SlidePage)
    (h : (d.slides.filter (fun x => x.slide_id = s.slide_id)).length ≤ 1) :
    s ∈ (d.upsert_slide s).slides ∧
    (d.upsert_slide s).slides.Pairwise
      (fun a b => a.page_number ≤ b.page_number) ∧
    (d.upsert_slide s).upsert_slide s = d.upsert_slide s := by
  have hmem : s ∈ (d.upsert_slide s).slides :=
    (mem_sortByPage _ s).mpr (mem_replaceOrAppend_self d.slides s)
  refine ⟨hmem, sortByPage_pairwise _, ?_⟩
  show SlideDocument.mk _ _ = _
  unfold SlideDocument.upsert_slide
  congr 1
  have hall := replaceOrAppend_unique d.slides s h
  have hall1 : ∀ x ∈ sortByPage (replaceOrAppend d.slides s),
      x.slide_id = s.slide_id → x = s := by
    intro x hx hid
    exact hall x ((mem_sortByPage _ x).mp hx) hid
  have hex1 : ∃ x ∈ sortByPage (replaceOrAppend d.slides s),
      x.slide_id = s.slide_id :=
    ⟨s, (mem_sortByPage _ s).mpr (mem_replaceOrAppend_self d.slides s), rfl⟩
  rw [replaceOrAppend_eq_self _ s hall1 hex1]
  exact sortByPage_of_pairwise _ (sortByPage_pairwise _)

/-- Witness for `upsert_slide_props`: upserting slide `x` into the
one-slide document (unique ids) is idempotent. -/
theorem upsert_slide_props_witness :
    pgS ∈ (docG.upsert_slide pgS).slides ∧
    (docG.upsert_slide pgS).upsert_slide pgS = docG.upsert_slide pgS :=
  ⟨(upsert_slide_props docG pgS (by decide)).1,
   (upsert_slide_props docG pgS (by decide)).2.2⟩

theorem dictGetD_dictSet_self (m : List (String × Value)) (k : String)
    (v dflt : Value) : dictGetD (dictSet m k v) k dflt = v := by
  unfold dictGetD
  rw [dictGet_dictSet_self]

theorem asStrList_map_str (l : List String) :
    (Value.arr (l.map Value.str)).asStrList = l := by
  simp only [Value.asStrList, List.map_map]
  exact List.map_id'' (fun s => rfl) l

theorem accumulate_references_props (doc : SlideDocument) (cits : List String)
    (m : List (String × Value)) (hm : doc.metadata = m) :
    (∀ x, x ∈ (dictGetD m "references" (.arr [])).asStrList →
       x ∈ (dictGetD (_accumulate_references doc cits).metadata "references"
         (.arr [])).asStrList) ∧
    ((dictGetD m "references" (.arr [])).asStrList.Pairwise
        (fun a b => a < b) →
       (dictGetD (_accumulate_references doc cits).metadata "references"
         (.arr [])).asStrList.Pairwise (fun a b => a < b)) := by
  subst hm
  unfold _accumulate_references
  by_cases hc : cits.isEmpty
  · rw [if_pos hc]
    exact ⟨fun x hx => hx, fun h => h⟩
  · rw [if_neg hc]
    simp only []
    constructor
    · intro x hx
      rw [dictGetD_dictSet_self, asStrList_map_str]
      exact mem_pySortedSet _ x (List.mem_append.mpr (Or.inl hx))
    · intro _
      rw [dictGetD_dictSet_self, asStrList_map_str]
      exact pairwise_pySortedSet _

/-- C4 (amended): across any `generate_for_slide` call that returns a
document, `metadata.references` only grows (every earlier reference is
still present — monotonicity holds unconditionally), and if the list was
sorted and duplicate-free before the call it is sorted and duplicate-free
after it (a call that accumulates citations always rewrites it to the
sorted deduplicated union).  The claim's stronger "sorted and deduplicated
after every call" fails when the document starts with an unsorted
references list and the call adds no citations (see the counterexample). -/
theorem references_monotone (lib : SlideLibrary) (client : Option ContentClient)
    (t : Today) (doc : SlideDocument) (slide_id : String)
    (ctx : GenerationContext) (doc' : SlideDocument)
    (hok : (generate_for_slide lib client t doc slide_id ctx).1 = .ok doc') :
    (∀ x, x ∈ (dictGetD doc.metadata "references" (.arr [])).asStrList →
       x ∈ (dictGetD doc'.metadata "references" (.arr [])).asStrList) ∧
    ((dictGetD doc.metadata "references" (.arr [])).asStrList.Pairwise
        (fun a b => a < b) →
       (dictGetD doc'.metadata "references" (.arr [])).asStrList.Pairwise
        (fun a b => a < b)) := by
  unfold generate_for_slide at hok
  split at hok
  · exact absurd hok (by simp)
  · split at hok
    · exact absurd hok (by simp)
    · simp only [] at hok
      have hdoc := Except.ok.inj hok
      rw [← hdoc]
      exact accumulate_references_props _ _ doc.metadata rfl

/-- C4 counterexample: a call that accumulates no citations leaves a
pre-existing unsorted references list (`["b", "a"]`) untouched, so
`metadata.references` is not sorted after every call. -/
theorem references_stay_unsorted_cex :
    ((generate_for_slide lib1 none t0 docRef "s1" ctx0).1.map
        (fun d => (dictGetD d.metadata "references" (.arr [])).asStrList)) =
      .ok ["b", "a"] ∧
    ¬ (["b", "a"] : List String).Pairwise (fun a b => a < b) := by
  refine ⟨rfl, fun h => ?_⟩
  rw [List.pairwise_cons] at h
  have hb := h.1 "a" (by simp)
  rw [String.lt_iff_toList_lt] at hb
  exact absurd hb (by decide)

/-- Witness for `references_monotone` on the placeholder-free document. -/
theorem references_monotone_witness :
    (dictGetD doc0Out.metadata "references" (.arr [])).asStrList.Pairwise
      (fun a b : String => a < b) :=
  (references_monotone lib0 none t0 doc0 "s0" ctx0 doc0Out rfl).2 (by decide)

theorem runStructuredPhase_failure (o : StructuredCallOutcome)
    (h : structuredFailure o) : runStructuredPhase o = ⟨[], none, []⟩ := by
  cases o with
  | raises => rfl
  | returns r =>
      simp only [structuredFailure] at h
      cases hext : extract_parsed_output r with
      | none => simp [runStructuredPhase, hext]
      | some v =>
          rw [hext] at h
          simp only [optTruthy] at h
          simp [runStructuredPhase, hext, h]

theorem resolvePlaceholder_empty_generate (tc : Option String) (t : Today)
    (spec : PlaceholderSpec) (hpol : pyLower spec.edit_policy = "generate") :
    resolvePlaceholder [] tc t spec =
      ⟨spec.name, pyStrip spec.description, "generate", []⟩ := by
  simp [resolvePlaceholder, hpol, lookupResult]

theorem content_for_asset_failure (client : Option ContentClient)
    (slide : SlidePage) (asset : SlideAsset) (ctx : GenerationContext)
    (t : Today) (cl : ContentClient)
    (hc : client = some cl) (hf : structuredFailure cl.structured) :
    _generate_content_for_asset client slide asset ctx t =
      (asset.placeholders.map (resolvePlaceholder [] (effectiveTargetCompany ctx) t),
       slide.notes,
       if (asset.placeholders.filter
           (fun ph => pyLower ph.edit_policy = "generate")).isEmpty then 0 else 1) := by
  subst hc
  unfold _generate_content_for_asset
  by_cases he : (asset.placeholders.filter
      (fun ph => pyLower ph.edit_policy = "generate")).isEmpty
  · simp [he]
  · simp [he, runStructuredPhase_failure cl.structured hf]

theorem asStrList_of_falsy (v : Value) (h : v.truthy = false) :
    v.asStrList = [] := by
  cases v with
  | arr xs =>
      simp only [Value.truthy] at h
      have : xs.isEmpty := by simpa using h
      rw [List.isEmpty_iff] at this
      simp [Value.asStrList, this]
  | null => rfl
  | bool b => rfl
  | int n => rfl
  | str s => rfl
  | obj fs => rfl

theorem dictGetD_falsy_asStrList (notes : List (String × Value))
    (h : optTruthy (dictGet notes "citations") = false) :
    (dictGetD notes "citations" (.arr [])).asStrList = [] := by
  unfold dictGetD
  cases hg : dictGet notes "citations" with
  | none => rfl
  | some v =>
      rw [hg] at h
      simp only [optTruthy] at h
      exact asStrList_of_falsy v h

theorem notes_citations_after_defaults (notes : List (String × Value))
    (ctx : GenerationContext)
    (hcit : optTruthy (dictGet notes "citations") = false) :
    (dictGetD (if strOptTruthy ctx.additional_notes then
        dictSet (dictSetdefault (dictSetdefault notes "citations" (.arr []))
          "summary" .null) "user_notes" (.str (ctx.additional_notes.getD ""))
      else dictSetdefault (dictSetdefault notes "citations" (.arr []))
          "summary" .null) "citations" (.arr [])).asStrList = [] := by
  have hbase : dictGet (dictSetdefault (dictSetdefault notes "citations" (.arr []))
      "summary" .null) "citations" = some (dictGetD notes "citations" (.arr [])) := by
    rw [dictGet_setdefault_ne _ _ _ _ (by decide), dictGet_setdefault]
  have hfin : (dictGetD notes "citations" (.arr [])).asStrList = [] :=
    dictGetD_falsy_asStrList notes hcit
  by_cases ha : strOptTruthy ctx.additional_notes
  · rw [if_pos ha]
    unfold dictGetD
    rw [dictGet_dictSet_ne _ _ _ _ (by decide), hbase]
    exact hfin
  · rw [if_neg ha]
    unfold dictGetD
    rw [hbase]
    exact hfin

theorem accumulate_references_nil (doc : SlideDocument) :
    _accumulate_references doc [] = doc := rfl

/-- C3 (amended): provided the slide's `asset_id` resolves in the library
and the slide carries no pre-existing citations in its notes,
`generate_for_slide` with a structured-output collaborator that raises or
returns unparsable output returns a document (it does not raise): the
document's metadata — in particular `references` — is unchanged, and the
updated slide holds, for every generate-policy placeholder, its spec
description (stripped) as the content text.  As stated the claim is false:
an unresolvable `asset_id` raises `KeyError` even under collaborator
failure, and pre-existing notes citations are re-accumulated into
`metadata.references` (see the counterexample). -/
theorem content_generation_llm_failure (lib : SlideLibrary)
    (client : Option ContentClient) (t : Today) (doc : SlideDocument)
    (slide_id : String) (ctx : GenerationContext) (slide : SlidePage)
    (asset : SlideAsset) (cl : ContentClient)
    (hs : doc.get_slide slide_id = some slide)
    (ha : lib.get_asset slide.asset_id = some asset)
    (hc : client = some cl)
    (hf : structuredFailure cl.structured)
    (hcit : optTruthy (dictGet slide.notes "citations") = false) :
    ∃ doc', (generate_for_slide lib client t doc slide_id ctx).1 = .ok doc' ∧
      doc'.metadata = doc.metadata ∧
      ∃ p ∈ doc'.slides, p.slide_id = slide.slide_id ∧
        ∀ spec ∈ asset.placeholders, pyLower spec.edit_policy = "generate" →
          (⟨spec.name, pyStrip spec.description, "generate", []⟩ :
            SlidePlaceholderContent) ∈ p.placeholders := by
  have hgen := content_for_asset_failure client slide asset ctx t cl hc hf
  unfold generate_for_slide
  rw [hs]
  simp only []
  rw [ha]
  simp only [hgen]
  refine ⟨_, rfl, ?_, ?_⟩
  · rw [notes_citations_after_defaults slide.notes ctx hcit, accumulate_references_nil]
    rfl
  · rw [notes_citations_after_defaults slide.notes ctx hcit, accumulate_references_nil]
    refine ⟨_, (mem_sortByPage _ _).mpr (mem_replaceOrAppend_self doc.slides _),
      rfl, ?_⟩
    intro spec hspec hpol
    show (⟨spec.name, pyStrip spec.description, "generate", []⟩ :
        SlidePlaceholderContent) ∈ asset.placeholders.map
          (resolvePlaceholder [] (effectiveTargetCompany ctx) t)
    rw [← resolvePlaceholder_empty_generate (effectiveTargetCompany ctx) t spec hpol]
    exact List.mem_map_of_mem _ hspec

/-- C3 counterexample: (i) a document whose slide carries an unknown
`asset_id` makes `generate_for_slide` raise `KeyError` even though the
collaborator raises, so the claim's universal "never raises" fails; and
(ii) with a raising collaborator, a slide with pre-existing notes
citations still adds them to `metadata.references` (from `[]` to
`["old"]`), so "references unchanged" also fails. -/
theorem content_generation_raises_cex :
    (generate_for_slide lib1 (some clRaises) t0 docBadAsset "s1" ctx0).1 =
      .error (.keyError "Unknown slide asset id: zzz") ∧
    ((generate_for_slide lib1 (some clRaises) t0 docNotesCit "s1" ctx0).1.map
        (fun d => (dictGetD d.metadata "references" (.arr [])).asStrList)) =
      .ok ["old"] ∧
    (dictGetD docNotesCit.metadata "references" (.arr [])).asStrList = [] :=
  ⟨rfl, rfl, rfl⟩

/-- Witness for `content_generation_llm_failure` on the generate-policy
document with a raising collaborator: the call returns a document with
unchanged metadata. -/
theorem content_generation_llm_failure_witness :
    (generate_for_slide lib1 (some clRaises) t0 docG "s1" ctx0).1.map
        (fun d => d.metadata) = .ok docG.metadata := by
  obtain ⟨doc', hok, hmd, _⟩ := content_generation_llm_failure lib1 (some clRaises)
    t0 docG "s1" ctx0 slideG asset1 clRaises rfl rfl rfl trivial rfl
  rw [hok]
  simp only [Except.map]
  rw [hmd]

theorem content_for_asset_no_editable (client : Option ContentClient)
    (slide : SlidePage) (asset : SlideAsset) (ctx : GenerationContext) (t : Today)
    (he : asset.placeholders.filter
        (fun ph => pyLower ph.edit_policy = "generate") = []) :
    _generate_content_for_asset client slide asset ctx t =
      (asset.placeholders.map (resolvePlaceholder [] (effectiveTargetCompany ctx) t),
       slide.notes, 0) := by
  unfold _generate_content_for_asset
  simp [he]

/-- C6 (amended): for a slide whose bound asset has only fixed- and
populate-policy placeholders, content generation makes zero
structured-output calls, and zero collaborator calls overall when
`perform_web_search` is off; each placeholder's text is the deterministic
rewrite of its description — `_normalize_fixed_text` for `fixed`,
`_populate_with_context` for `populate` — parameterised by the effective
target company (the given `target_company` or the entity inferred from
`user_request`) and the current date.  As stated the claim fails: with
`perform_web_search` on, a `web_search` collaborator call is made even for
such slides, and with `target_company = None` the populate text depends on
`user_request` (see the counterexample). -/
theorem policy_determinism (lib : SlideLibrary) (client : Option ContentClient)
    (t : Today) (doc : SlideDocument) (slide_id : String)
    (ctx : GenerationContext) (slide : SlidePage) (asset : SlideAsset)
    (hs : doc.get_slide slide_id = some slide)
    (ha : lib.get_asset slide.asset_id = some asset)
    (hpol : ∀ spec ∈ asset.placeholders,
        pyLower spec.edit_policy = "fixed" ∨ pyLower spec.edit_policy = "populate") :
    (_generate_content_for_asset client slide asset ctx t).2.2 = 0 ∧
    (ctx.perform_web_search = false →
       (generate_for_slide lib client t doc slide_id ctx).2 = 0) ∧
    (_generate_content_for_asset client slide asset ctx t).1 =
      asset.placeholders.map (resolvePlaceholder [] (effectiveTargetCompany ctx) t) ∧
    (∀ spec ∈ asset.placeholders,
       (pyLower spec.edit_policy = "fixed" →
          (resolvePlaceholder [] (effectiveTargetCompany ctx) t spec).text =
            pyStrip (_normalize_fixed_text spec.description)) ∧
       (pyLower spec.edit_policy = "populate" →
          (resolvePlaceholder [] (effectiveTargetCompany ctx) t spec).text =
            pyStrip (_populate_with_context spec.description
              (effectiveTargetCompany ctx) t))) := by
  have he : asset.placeholders.filter
      (fun ph => pyLower ph.edit_policy = "generate") = [] := by
    rw [List.filter_eq_nil_iff]
    intro ph hph
    rcases hpol ph hph with h | h <;> simp [h]
  have hgen := content_for_asset_no_editable client slide asset ctx t he
  refine ⟨by rw [hgen], ?_, by rw [hgen], ?_⟩
  · intro hweb
    unfold generate_for_slide
    rw [hs]
    simp only []
    rw [ha]
    simp only [hgen]
    show (_maybe_perform_web_search client ctx).2 + 0 = 0
    unfold _maybe_perform_web_search
    rw [if_pos (by simp [hweb])]
  · intro spec hspec
    constructor
    · intro hf
      have hng : ¬ (pyLower spec.edit_policy = "generate") := by
        rw [hf]
        decide
      unfold resolvePlaceholder
      rw [if_neg hng, if_pos hf]
    · intro hp
      have hng : ¬ (pyLower spec.edit_policy = "generate") := by
        rw [hp]
        decide
      have hnf : ¬ (pyLower spec.edit_policy = "fixed") := by
        rw [hp]
        decide
      unfold resolvePlaceholder
      rw [if_neg hng, if_neg hnf, if_pos hp]

/-- C6 counterexample: (i) with `perform_web_search` on and a client
exposing `web_search`, generating the populate-only slide makes one
collaborator call, not zero; and (ii) with no `target_company`, the same
populate placeholder on the same date yields different text for different
`user_request` values ("ACME社の件" vs "BETA社の件"), so the text is not a
function of (description, target_company, date) alone. -/
theorem policy_determinism_cex :
    (generate_for_slide lib1 (some clWeb) t0 docP "s1" ctxWeb).2 = 1 ∧
    (_generate_content_for_asset none slideP asset2 ctxA t0).1.map
        (fun c => c.text) ≠
      (_generate_content_for_asset none slideP asset2 ctxB t0).1.map
        (fun c => c.text) := by
  refine ⟨rfl, fun h => ?_⟩
  have h1 : (_generate_content_for_asset none slideP asset2 ctxA t0).1.map
      (fun c => c.text) = ["ACME向け資料"] := rfl
  have h2 : (_generate_content_for_asset none slideP asset2 ctxB t0).1.map
      (fun c => c.text) = ["BETA向け資料"] := rfl
  rw [h1, h2] at h
  exact absurd h (by decide)

/-- Witness for `policy_determinism` on the populate-only slide with the
web-search flag off. -/
theorem policy_determinism_witness :
    (_generate_content_for_asset (some clWeb) slideP asset2 ctx0 t0).2.2 = 0 ∧
    (generate_for_slide lib1 (some clWeb) t0 docP "s1" ctx0).2 = 0 :=
  ⟨(policy_determinism lib1 (some clWeb) t0 docP "s1" ctx0 slideP asset2
      rfl rfl (by decide)).1,
   (policy_determinism lib1 (some clWeb) t0 docP "s1" ctx0 slideP asset2
      rfl rfl (by decide)).2.1 rfl⟩

/-- C7 counterexample: a generate-policy placeholder whose description is
empty ends with empty content text when the structured-output response
contains no entry for it — the fallback-to-description does not guarantee
non-empty text. -/
theorem generate_empty_description_cex :
    ((generate_for_slide libE (some clNoEntries) t0 docE "s1" ctx0).1.map
        (fun d => d.slides.map (fun p => p.placeholders.map
          (fun c => c.text)))) = .ok [[""]] := rfl

/-- C7 (amended): for a generate-policy placeholder whose name the LLM
result map does not contain — or maps to empty text — the resolved content
text is the stripped spec description, and it is non-empty exactly when the
stripped description is non-empty (an empty description yields empty
text). -/
theorem generate_policy_fallback (results : List (String × LlmEntry))
    (tc : Option String) (t : Today) (spec : PlaceholderSpec)
    (hpol : pyLower spec.edit_policy = "generate")
    (hmiss : ∀ e, lookupResult results spec.name = some e → e.text = "") :
    (resolvePlaceholder results tc t spec).text = pyStrip spec.description ∧
    (pyStrip spec.description ≠ "" →
       (resolvePlaceholder results tc t spec).text ≠ "") := by
  have htext : (resolvePlaceholder results tc t spec).text =
      pyStrip spec.description := by
    unfold resolvePlaceholder
    rw [if_pos hpol]
    cases hg : lookupResult results spec.name with
    | none => simp [hg]
    | some e => simp [hg, hmiss e hg]
  exact ⟨htext, fun hne => by rw [htext]; exact hne⟩

/-- Witness for `generate_policy_fallback` at an empty result map and a
non-empty description. -/
theorem generate_policy_fallback_witness :
    (resolvePlaceholder [] none t0 ⟨"P1", 0, "説明文", "generate"⟩).text =
      pyStrip "説明文" ∧
    (resolvePlaceholder [] none t0 ⟨"P1", 0, "説明文", "generate"⟩).text ≠ "" :=
  ⟨(generate_policy_fallback [] none t0 ⟨"P1", 0, "説明文", "generate"⟩ rfl
      (fun e he => by simp [lookupResult] at he)).1,
   (generate_policy_fallback [] none t0 ⟨"P1", 0, "説明文", "generate"⟩ rfl
      (fun e he => by simp [lookupResult] at he)).2 (by decide)⟩
